import Mathlib

/-!
Shallow embedding of the `ovsbridge` CNI plugin
(`src/plugins/main/ovsbridge/ovsbridge.go`).

External collaborators (the OVS switch client, the netns package, the
kernel veth factory, `net.InterfaceByName`, `current.NewResultFromResult`)
are modelled by an environment `Env` that fixes the outcome of each external
call.  The Go functions `loadNetConf`, `setupVeth`, `setupBridge`, `cmdAdd`
and `cmdDel` become Lean functions that return an `Except`-style result
paired with the trace of external calls actually performed (`List Event`),
so that temporal and absence properties ("the veth pair was never deleted",
"the namespace was never opened") are statable.
-/

namespace Ovsbridge

/-- `const defaultBrName = "ovsbr0"`. -/
def defaultBrName : String := "ovsbr0"

/-- The resolved configuration `NetConf` (the fields the plugin reads:
`BrName` from json key `bridge`, `MTU` from `mtu`, `PNIC` from `pNIC`). -/
structure NetConf where
  brName : String
  mtu : Nat
  pNIC : String
deriving DecidableEq, Repr

/-- The stdin data handed to `loadNetConf`, modelled at the granularity
`json.Unmarshal` exposes: whether the bytes parse at all, and for each
field the plugin reads, whether the json object carries that key and with
which value.  Go's `json.Unmarshal` overwrites a pre-initialised struct
field exactly when the key is present (even with an empty/zero value). -/
structure StdinData where
  parseOk : Bool
  bridge : Option String
  mtu : Option Nat
  pNIC : Option String
  cniVersion : String
deriving DecidableEq, Repr

/-- `loadNetConf`: pre-initialise `BrName` with `defaultBrName`, then
unmarshal; each present json key overwrites the corresponding field. -/
def loadNetConf (bytes : StdinData) : Except String (NetConf × String) :=
  if bytes.parseOk then
    .ok ({ brName := bytes.bridge.getD defaultBrName,
           mtu := bytes.mtu.getD 0,
           pNIC := bytes.pNIC.getD "" }, bytes.cniVersion)
  else
    .error "failed to load netconf"

/-- `current.Interface`: name, hardware address (`Mac`) and owning
namespace path (`Sandbox`); Go zero value is the empty string. -/
structure Iface where
  name : String
  mac : String
  sandbox : String
deriving DecidableEq, Repr

/-- The `current.Result` content the plugin fills in: the interface list
plus the CNI version echoed to the caller by `types.PrintResult`. -/
structure ResultRec where
  interfaces : List Iface
  cniVersion : String
deriving DecidableEq, Repr

/-- One observable external call made by the plugin. `delVeth` (deletion
of a veth end by name) and `delPort` (switch del-port) are in the
vocabulary so that their absence from a trace is statable; nothing in the
source emits them. -/
inductive Event where
  | newOVSSwitch (bridgeName : String)
  | addPort (bridgeName ifName : String)
  | delPort (bridgeName ifName : String)
  | getNS (path : String)
  | closeNS (path : String)
  | vethCreated (hostVethName containerVethName : String)
  | delVeth (name : String)
  | interfaceByName (name : String)
  | printResult (r : ResultRec)
deriving DecidableEq, Repr

/-- Outcomes of the external calls, fixed per run.  `vethResult` models
`ip.SetupVeth(ifName, mtu, hostNS)`: on success the container end keeps
the requested name and the pair `(hostVethName, containerMac)` reports the
system-generated host-end name and the container end's hardware address;
`none` means the (kernel-atomic) creation failed with nothing created. -/
structure Env where
  newOVSSwitchOk : String → Bool
  addPortOk : String → String → Bool
  getNSOk : String → Bool
  vethResult : String → Nat → Option (String × String)
  newResultOk : Bool
  interfaceByNameOk : Bool

/-- `skel.CmdArgs`: the fields the plugin reads. -/
structure CmdArgs where
  netns : String
  ifName : String
  stdinData : StdinData

/-- `setupVeth(netns, br, ifName, mtu)`: inside the namespace, create the
veth pair (container end named `ifName`, host end moved to the host
namespace under a generated name) and fill the two `current.Interface`
records; then call `br.addPort(contIface.Name)` — note: the source passes
the container-side name — and on its failure return the "failed to
connect" error without any cleanup. -/
def setupVeth (env : Env) (netnsPath : String) (brBridgeName : String)
    (ifName : String) (mtu : Nat) :
    Except String (Iface × Iface) × List Event :=
  match env.vethResult ifName mtu with
  | none => (.error "failed to create veth pair", [])
  | some (hostVethName, containerMac) =>
    let contIface : Iface :=
      { name := ifName, mac := containerMac, sandbox := netnsPath }
    let hostIface : Iface := { name := hostVethName, mac := "", sandbox := "" }
    let ev := [Event.vethCreated hostVethName ifName,
               Event.addPort brBridgeName contIface.name]
    if env.addPortOk brBridgeName contIface.name then
      (.ok (hostIface, contIface), ev)
    else
      (.error ("failed to connect " ++ hostIface.name ++ " to bridge "
                ++ brBridgeName), ev)

/-- `setupBridge(n)`: `NewOVSSwitch(n.BrName)` (create the bridge if
necessary) and the bridge's `current.Interface` record, which carries only
the name.  The switch handle is represented by its bridge name. -/
def setupBridge (env : Env) (n : NetConf) :
    Except String (String × Iface) × List Event :=
  if env.newOVSSwitchOk n.brName then
    (.ok (n.brName, { name := n.brName, mac := "", sandbox := "" }),
     [Event.newOVSSwitch n.brName])
  else
    (.error ("failed to create bridge " ++ n.brName),
     [Event.newOVSSwitch n.brName])

/-- The body of `cmdAdd` after `ns.GetNS` succeeded and before the
deferred `netns.Close()` runs: `current.NewResultFromResult(nil)`, then
`setupVeth`, then the result's interface list
`[brInterface, hostInterface, containerInterface]`, then the in-namespace
`net.InterfaceByName(args.IfName)` lookup, then `types.PrintResult`. -/
def cmdAddPostNS (env : Env) (args : CmdArgs) (n : NetConf)
    (cniVersion : String) (brBridgeName : String) (brInterface : Iface) :
    Except String Unit × List Event :=
  if env.newResultOk then
    match setupVeth env args.netns brBridgeName args.ifName n.mtu with
    | (.error e, ev) => (.error e, ev)
    | (.ok (hostInterface, containerInterface), ev) =>
      let ev := ev ++ [Event.interfaceByName args.ifName]
      if env.interfaceByNameOk then
        let r : ResultRec :=
          { interfaces := [brInterface, hostInterface, containerInterface],
            cniVersion := cniVersion }
        (.ok (), ev ++ [Event.printResult r])
      else
        (.error ("failed to look up " ++ args.ifName), ev)
  else
    (.error "failed to convert result", [])

/-- `cmdAdd`: load config, `setupBridge`, `br.addPort(n.PNIC)` (uplink),
`ns.GetNS(args.Netns)` with a deferred `Close`, then the post-namespace
body (`cmdAddPostNS`). -/
def cmdAdd (env : Env) (args : CmdArgs) : Except String Unit × List Event :=
  match loadNetConf args.stdinData with
  | .error e => (.error e, [])
  | .ok (n, cniVersion) =>
    match setupBridge env n with
    | (.error e, ev) => (.error e, ev)
    | (.ok (brBridgeName, brInterface), ev) =>
      let ev := ev ++ [Event.addPort brBridgeName n.pNIC]
      if env.addPortOk brBridgeName n.pNIC then
        let ev := ev ++ [Event.getNS args.netns]
        if env.getNSOk args.netns then
          let inner := cmdAddPostNS env args n cniVersion brBridgeName brInterface
          (inner.1, ev ++ inner.2 ++ [Event.closeNS args.netns])
        else
          (.error ("failed to open netns " ++ args.netns), ev)
      else
        (.error "failed to add uplink port", ev)

/-- `cmdDel`: load config; if `args.Netns` is empty return `nil`;
otherwise return `err`, which at that point is the `nil` from the
successful `loadNetConf` — so no switch-client call is ever made. -/
def cmdDel (args : CmdArgs) : Except String Unit × List Event :=
  match loadNetConf args.stdinData with
  | .error e => (.error e, [])
  | .ok _ =>
    if args.netns = "" then (.ok (), [])
    else (.ok (), [])

/-! ### Concrete inputs used by counterexamples and witnesses -/

/-- Stdin of the end-to-end scenario: no `bridge` key, mtu 1500, uplink
`eth1`, CNI version `0.3.1`. -/
def dDemo : StdinData :=
  { parseOk := true, bridge := none, mtu := some 1500,
    pNIC := some "eth1", cniVersion := "0.3.1" }

/-- Stdin that explicitly carries `"bridge": ""`. -/
def dEmptyBridge : StdinData :=
  { parseOk := true, bridge := some "", mtu := some 1500,
    pNIC := some "eth1", cniVersion := "0.3.1" }

/-- Stdin that explicitly carries `"bridge": "br-int"`. -/
def dNamedBridge : StdinData :=
  { parseOk := true, bridge := some "br-int", mtu := some 1500,
    pNIC := some "eth1", cniVersion := "0.3.1" }

/-- The end-to-end attachment request. -/
def argsDemo : CmdArgs :=
  { netns := "/proc/1234/ns/net", ifName := "eth0", stdinData := dDemo }

/-- Environment in which every external call succeeds; the kernel reports
host veth name `veth1a2b3c` and container hardware address
`0a:58:0a:01:01:02`. -/
def envAllOk : Env :=
  { newOVSSwitchOk := fun _ => true,
    addPortOk := fun _ _ => true,
    getNSOk := fun _ => true,
    vethResult := fun _ _ => some ("veth1a2b3c", "0a:58:0a:01:01:02"),
    newResultOk := true,
    interfaceByNameOk := true }

/-- Environment in which the only failing call is the switch add-port for
the name the code passes after cable creation (`eth0`); the uplink attach
of `eth1` succeeds. -/
def envLateFail : Env :=
  { envAllOk with addPortOk := fun _ p => p == "eth1" }

/-- Environment in which every add-port call fails, so the uplink attach
fails before any namespace work. -/
def envUplinkFail : Env :=
  { envAllOk with addPortOk := fun _ _ => false }

/-! ### Shared computation lemmas -/

/-- When every external call succeeds, `cmdAdd` returns `ok` and its trace
is the explicit eight-event sequence ending in the printed result. -/
theorem cmdAdd_success_eq (env : Env) (args : CmdArgs) (n : NetConf)
    (cv hostName mac : String)
    (hload : loadNetConf args.stdinData = .ok (n, cv))
    (hsw : env.newOVSSwitchOk n.brName = true)
    (hup : env.addPortOk n.brName n.pNIC = true)
    (hns : env.getNSOk args.netns = true)
    (hres : env.newResultOk = true)
    (hveth : env.vethResult args.ifName n.mtu = some (hostName, mac))
    (hatt : env.addPortOk n.brName args.ifName = true)
    (hif : env.interfaceByNameOk = true) :
    cmdAdd env args = (.ok (),
      [Event.newOVSSwitch n.brName,
       Event.addPort n.brName n.pNIC,
       Event.getNS args.netns,
       Event.vethCreated hostName args.ifName,
       Event.addPort n.brName args.ifName,
       Event.interfaceByName args.ifName,
       Event.printResult
         { interfaces :=
             [{ name := n.brName, mac := "", sandbox := "" },
              { name := hostName, mac := "", sandbox := "" },
              { name := args.ifName, mac := mac, sandbox := args.netns }],
           cniVersion := cv },
       Event.closeNS args.netns]) := by
  simp [cmdAdd, hload, setupBridge, hsw, hup, hns, cmdAddPostNS, hres,
        setupVeth, hveth, hatt, hif]

/-- When every call up to veth creation succeeds but the subsequent
add-port fails, `cmdAdd` returns the "failed to connect" error and its
trace contains the veth creation but no deletion of any interface. -/
theorem cmdAdd_lateFail_eq (env : Env) (args : CmdArgs) (n : NetConf)
    (cv hostName mac : String)
    (hload : loadNetConf args.stdinData = .ok (n, cv))
    (hsw : env.newOVSSwitchOk n.brName = true)
    (hup : env.addPortOk n.brName n.pNIC = true)
    (hns : env.getNSOk args.netns = true)
    (hres : env.newResultOk = true)
    (hveth : env.vethResult args.ifName n.mtu = some (hostName, mac))
    (hfail : env.addPortOk n.brName args.ifName = false) :
    cmdAdd env args =
      (.error ("failed to connect " ++ hostName ++ " to bridge " ++ n.brName),
       [Event.newOVSSwitch n.brName,
        Event.addPort n.brName n.pNIC,
        Event.getNS args.netns,
        Event.vethCreated hostName args.ifName,
        Event.addPort n.brName args.ifName,
        Event.closeNS args.netns]) := by
  simp [cmdAdd, hload, setupBridge, hsw, hup, hns, cmdAddPostNS, hres,
        setupVeth, hveth, hfail]

/-! ### Claims -/

/-- C1, counterexample: in the run where veth creation succeeds and the
subsequent add-port fails, the error is returned while the veth pair was
created and no deletion of either end ever happened — the claim that the
pair is fully removed before the error returns is false on this code. -/
theorem C1_counterexample :
    Event.vethCreated "veth1a2b3c" "eth0" ∈ (cmdAdd envLateFail argsDemo).2
    ∧ (cmdAdd envLateFail argsDemo).1 =
        .error "failed to connect veth1a2b3c to bridge ovsbr0"
    ∧ Event.delVeth "veth1a2b3c" ∉ (cmdAdd envLateFail argsDemo).2
    ∧ Event.delVeth "eth0" ∉ (cmdAdd envLateFail argsDemo).2 :=
  ⟨by decide, rfl, by decide, by decide⟩

/-- C1, amended: when the switch add-port call after cable creation
fails, the error is surfaced with the just-created veth pair left in
place: no deletion of any interface appears in the trace. -/
theorem C1_no_rollback_on_late_failure (env : Env) (args : CmdArgs)
    (n : NetConf) (cv hostName mac : String)
    (hload : loadNetConf args.stdinData = .ok (n, cv))
    (hsw : env.newOVSSwitchOk n.brName = true)
    (hup : env.addPortOk n.brName n.pNIC = true)
    (hns : env.getNSOk args.netns = true)
    (hres : env.newResultOk = true)
    (hveth : env.vethResult args.ifName n.mtu = some (hostName, mac))
    (hfail : env.addPortOk n.brName args.ifName = false) :
    (cmdAdd env args).1 =
        .error ("failed to connect " ++ hostName ++ " to bridge " ++ n.brName)
    ∧ Event.vethCreated hostName args.ifName ∈ (cmdAdd env args).2
    ∧ ∀ x, Event.delVeth x ∉ (cmdAdd env args).2 := by
  rw [cmdAdd_lateFail_eq env args n cv hostName mac hload hsw hup hns hres
      hveth hfail]
  refine ⟨rfl, by simp, fun x => by simp⟩

/-- C1, witness: the amended statement evaluated on the concrete
late-failure run. -/
theorem C1_witness :
    (cmdAdd envLateFail argsDemo).1 =
        .error "failed to connect veth1a2b3c to bridge ovsbr0"
    ∧ Event.vethCreated "veth1a2b3c" "eth0" ∈ (cmdAdd envLateFail argsDemo).2
    ∧ Event.delVeth "veth1a2b3c" ∉ (cmdAdd envLateFail argsDemo).2 := by
  obtain ⟨h1, h2, h3⟩ := C1_no_rollback_on_late_failure envLateFail argsDemo
    ⟨"ovsbr0", 1500, "eth1"⟩ "0.3.1" "veth1a2b3c" "0a:58:0a:01:01:02"
    rfl rfl rfl rfl rfl rfl rfl
  exact ⟨h1, h2, h3 "veth1a2b3c"⟩

/-- C2: on the fully successful run, the add-port call made after cable
creation receives the container-side name `eth0` (the requested interface
name), and the host-side generated name `veth1a2b3c` is never passed to
add-port — contradicting the source's own comment ("connect host veth end
to the bridge") and its error message, which names `hostIface.Name`. -/
theorem C2_addPort_gets_container_name :
    (cmdAdd envAllOk argsDemo).1 = .ok ()
    ∧ Event.vethCreated "veth1a2b3c" "eth0" ∈ (cmdAdd envAllOk argsDemo).2
    ∧ Event.addPort "ovsbr0" "eth0" ∈ (cmdAdd envAllOk argsDemo).2
    ∧ Event.addPort "ovsbr0" "veth1a2b3c" ∉ (cmdAdd envAllOk argsDemo).2 :=
  ⟨rfl, by decide, by decide, by decide⟩

/-- C3, counterexample: a teardown request with a non-empty namespace
path returns success with an empty trace — no del-port (nor any other
switch-client call) is performed, refuting the claimed best-effort
detach. -/
theorem C3_counterexample :
    argsDemo.netns = "/proc/1234/ns/net"
    ∧ cmdDel argsDemo = (.ok (), [])
    ∧ Event.delPort "ovsbr0" "veth1a2b3c" ∉ (cmdDel argsDemo).2 :=
  ⟨rfl, rfl, by decide⟩

/-- C3, amended: for every teardown request whose configuration parses
and whose namespace path is non-empty, `cmdDel` returns success and makes
no external call at all (in particular no switch del-port). -/
theorem C3_teardown_makes_no_call (args : CmdArgs)
    (h : args.stdinData.parseOk = true) (_hn : args.netns ≠ "") :
    cmdDel args = (.ok (), []) := by
  simp [cmdDel, loadNetConf, h]

/-- C3, witness: the amended statement on the concrete teardown request
with namespace path `/proc/1234/ns/net`. -/
theorem C3_witness : cmdDel argsDemo = (.ok (), []) :=
  C3_teardown_makes_no_call argsDemo rfl (by decide)

/-- C4: a teardown request whose configuration parses and whose
namespace path is empty succeeds with an empty trace, hence without
contacting the switch client. -/
theorem C4_trivial_teardown (args : CmdArgs)
    (h : args.stdinData.parseOk = true) (hn : args.netns = "") :
    cmdDel args = (.ok (), []) := by
  simp [cmdDel, loadNetConf, h, hn]

/-- C4, witness: trivial teardown on the concrete request with empty
namespace path. -/
theorem C4_witness :
    cmdDel { netns := "", ifName := "eth0", stdinData := dDemo } = (.ok (), []) :=
  C4_trivial_teardown { netns := "", ifName := "eth0", stdinData := dDemo } rfl rfl

/-- C5: every successful attachment prints a topology result whose
interface list is exactly `[switch device, host veth end, container veth
end]`, where the first two carry no owning namespace (empty sandbox) and
the container descriptor's sandbox is the request's namespace path. -/
theorem C5_topology_result (env : Env) (args : CmdArgs) (n : NetConf)
    (cv hostName mac : String)
    (hload : loadNetConf args.stdinData = .ok (n, cv))
    (hsw : env.newOVSSwitchOk n.brName = true)
    (hup : env.addPortOk n.brName n.pNIC = true)
    (hns : env.getNSOk args.netns = true)
    (hres : env.newResultOk = true)
    (hveth : env.vethResult args.ifName n.mtu = some (hostName, mac))
    (hatt : env.addPortOk n.brName args.ifName = true)
    (hif : env.interfaceByNameOk = true) :
    (cmdAdd env args).1 = .ok ()
    ∧ Event.printResult
        { interfaces :=
            [{ name := n.brName, mac := "", sandbox := "" },
             { name := hostName, mac := "", sandbox := "" },
             { name := args.ifName, mac := mac, sandbox := args.netns }],
          cniVersion := cv } ∈ (cmdAdd env args).2 := by
  rw [cmdAdd_success_eq env args n cv hostName mac hload hsw hup hns hres
      hveth hatt hif]
  exact ⟨rfl, by simp⟩

/-- C5, witness: the topology result on the concrete end-to-end run. -/
theorem C5_witness :
    (cmdAdd envAllOk argsDemo).1 = .ok ()
    ∧ Event.printResult
        { interfaces :=
            [{ name := "ovsbr0", mac := "", sandbox := "" },
             { name := "veth1a2b3c", mac := "", sandbox := "" },
             { name := "eth0", mac := "0a:58:0a:01:01:02",
               sandbox := "/proc/1234/ns/net" }],
          cniVersion := "0.3.1" } ∈ (cmdAdd envAllOk argsDemo).2 :=
  C5_topology_result envAllOk argsDemo ⟨"ovsbr0", 1500, "eth1"⟩ "0.3.1"
    "veth1a2b3c" "0a:58:0a:01:01:02" rfl rfl rfl rfl rfl rfl rfl rfl

/-- C10: in the result printed by a successful attachment, the hardware
addresses of the three descriptors are `["", "", mac]`: only the
container-side descriptor carries the hardware address reported at veth
creation; the switch-device and host-veth descriptors have empty ones. -/
theorem C10_mac_only_on_container (env : Env) (args : CmdArgs) (n : NetConf)
    (cv hostName mac : String)
    (hload : loadNetConf args.stdinData = .ok (n, cv))
    (hsw : env.newOVSSwitchOk n.brName = true)
    (hup : env.addPortOk n.brName n.pNIC = true)
    (hns : env.getNSOk args.netns = true)
    (hres : env.newResultOk = true)
    (hveth : env.vethResult args.ifName n.mtu = some (hostName, mac))
    (hatt : env.addPortOk n.brName args.ifName = true)
    (hif : env.interfaceByNameOk = true) :
    ∀ r, Event.printResult r ∈ (cmdAdd env args).2 →
      r.interfaces.map Iface.mac = ["", "", mac] := by
  rw [cmdAdd_success_eq env args n cv hostName mac hload hsw hup hns hres
      hveth hatt hif]
  intro r hr
  simp only [List.mem_cons, List.not_mem_nil, or_false] at hr
  rcases hr with h | h | h | h | h | h | h | h <;>
    first
      | (rw [Event.printResult.injEq] at h; subst h; rfl)
      | exact absurd h (by simp)

/-- C10, witness: the hardware-address column of the concrete printed
result. -/
theorem C10_witness :
    ({ interfaces :=
         [{ name := "ovsbr0", mac := "", sandbox := "" },
          { name := "veth1a2b3c", mac := "", sandbox := "" },
          { name := "eth0", mac := "0a:58:0a:01:01:02",
            sandbox := "/proc/1234/ns/net" }],
       cniVersion := "0.3.1" } : ResultRec).interfaces.map Iface.mac
      = ["", "", "0a:58:0a:01:01:02"] :=
  C10_mac_only_on_container envAllOk argsDemo ⟨"ovsbr0", 1500, "eth1"⟩ "0.3.1"
    "veth1a2b3c" "0a:58:0a:01:01:02" rfl rfl rfl rfl rfl rfl rfl rfl
    { interfaces :=
        [{ name := "ovsbr0", mac := "", sandbox := "" },
         { name := "veth1a2b3c", mac := "", sandbox := "" },
         { name := "eth0", mac := "0a:58:0a:01:01:02",
           sandbox := "/proc/1234/ns/net" }],
      cniVersion := "0.3.1" } (by decide)

/-- The post-namespace body never opens a namespace: `ns.GetNS` is called
only once, in `cmdAdd`, before this body runs. -/
theorem cmdAddPostNS_no_getNS (env : Env) (args : CmdArgs) (n : NetConf)
    (cv brBridgeName : String) (brI : Iface) (p : String) :
    Event.getNS p ∉ (cmdAddPostNS env args n cv brBridgeName brI).2 := by
  cases hres : env.newResultOk
  · simp [cmdAddPostNS, hres]
  · rcases hveth : env.vethResult args.ifName n.mtu with _ | ⟨hn, mac⟩
    · simp [cmdAddPostNS, hres, setupVeth, hveth]
    · cases hatt : env.addPortOk brBridgeName args.ifName
      · simp [cmdAddPostNS, hres, setupVeth, hveth, hatt]
      · cases hif : env.interfaceByNameOk
        · simp [cmdAddPostNS, hres, setupVeth, hveth, hatt, hif]
        · simp [cmdAddPostNS, hres, setupVeth, hveth, hatt, hif]

/-- C6: when switch creation or the uplink attach fails, the namespace is
never opened and no veth pair is created; and whenever the namespace open
does appear in the trace, the trace begins with switch creation, the
uplink attach, and only then the namespace open — the uplink attach is
invoked strictly before the namespace is opened. -/
theorem C6_uplink_before_namespace (env : Env) (args : CmdArgs)
    (n : NetConf) (cv : String)
    (hload : loadNetConf args.stdinData = .ok (n, cv)) :
    ((env.newOVSSwitchOk n.brName = false ∨ env.addPortOk n.brName n.pNIC = false) →
        (∀ p, Event.getNS p ∉ (cmdAdd env args).2)
        ∧ ∀ hv c, Event.vethCreated hv c ∉ (cmdAdd env args).2)
    ∧ ∀ p, Event.getNS p ∈ (cmdAdd env args).2 →
        ∃ rest, (cmdAdd env args).2 =
          Event.newOVSSwitch n.brName :: Event.addPort n.brName n.pNIC ::
            Event.getNS args.netns :: rest := by
  cases hsw : env.newOVSSwitchOk n.brName
  · constructor
    · intro _
      exact ⟨fun p => by simp [cmdAdd, hload, setupBridge, hsw],
             fun hv c => by simp [cmdAdd, hload, setupBridge, hsw]⟩
    · intro p hp
      simp [cmdAdd, hload, setupBridge, hsw] at hp
  · cases hup : env.addPortOk n.brName n.pNIC
    · constructor
      · intro _
        exact ⟨fun p => by simp [cmdAdd, hload, setupBridge, hsw, hup],
               fun hv c => by simp [cmdAdd, hload, setupBridge, hsw, hup]⟩
      · intro p hp
        simp [cmdAdd, hload, setupBridge, hsw, hup] at hp
    · constructor
      · rintro (hc | hc)
        · simp [hsw] at hc
        · simp [hup] at hc
      · intro p hp
        cases hns : env.getNSOk args.netns
        · exact ⟨[], by simp [cmdAdd, hload, setupBridge, hsw, hup, hns]⟩
        · exact ⟨(cmdAddPostNS env args n cv n.brName
                    { name := n.brName, mac := "", sandbox := "" }).2
                  ++ [Event.closeNS args.netns],
                 by simp [cmdAdd, hload, setupBridge, hsw, hup, hns]⟩

/-- C6, witness: with a failing uplink attach, the concrete request never
opens the namespace and never creates a veth pair. -/
theorem C6_witness :
    Event.getNS "/proc/1234/ns/net" ∉ (cmdAdd envUplinkFail argsDemo).2
    ∧ Event.vethCreated "veth1a2b3c" "eth0" ∉ (cmdAdd envUplinkFail argsDemo).2 := by
  have h := (C6_uplink_before_namespace envUplinkFail argsDemo
    ⟨"ovsbr0", 1500, "eth1"⟩ "0.3.1" rfl).1 (Or.inr rfl)
  exact ⟨h.1 "/proc/1234/ns/net", h.2 "veth1a2b3c" "eth0"⟩

/-- C7: a topology result is printed if and only if `cmdAdd` returns
success; on any error path no (partial) result event is emitted. -/
theorem C7_print_iff_success (env : Env) (args : CmdArgs) :
    (cmdAdd env args).1 = .ok ()
      ↔ ∃ r, Event.printResult r ∈ (cmdAdd env args).2 := by
  rcases hload : loadNetConf args.stdinData with e | ⟨n, cv⟩
  · simp [cmdAdd, hload]
  · cases hsw : env.newOVSSwitchOk n.brName
    · simp [cmdAdd, hload, setupBridge, hsw]
    · cases hup : env.addPortOk n.brName n.pNIC
      · simp [cmdAdd, hload, setupBridge, hsw, hup]
      · cases hns : env.getNSOk args.netns
        · simp [cmdAdd, hload, setupBridge, hsw, hup, hns]
        · cases hres : env.newResultOk
          · simp [cmdAdd, hload, setupBridge, hsw, hup, hns, cmdAddPostNS,
                  hres]
          · rcases hveth : env.vethResult args.ifName n.mtu with _ | ⟨hv, mac⟩
            · simp [cmdAdd, hload, setupBridge, hsw, hup, hns, cmdAddPostNS,
                    hres, setupVeth, hveth]
            · cases hatt : env.addPortOk n.brName args.ifName
              · simp [cmdAdd, hload, setupBridge, hsw, hup, hns, cmdAddPostNS,
                      hres, setupVeth, hveth, hatt]
              · cases hif : env.interfaceByNameOk
                · simp [cmdAdd, hload, setupBridge, hsw, hup, hns,
                        cmdAddPostNS, hres, setupVeth, hveth, hatt, hif]
                · simp [cmdAdd, hload, setupBridge, hsw, hup, hns,
                        cmdAddPostNS, hres, setupVeth, hveth, hatt, hif]

/-- C8: when the parsed configuration carries no `bridge` key the
resolved name is the default `ovsbr0`; when it carries one, that value is
the resolved name. -/
theorem C8_bridge_name_resolution (d : StdinData) (n : NetConf) (cv : String)
    (h : loadNetConf d = .ok (n, cv)) :
    (d.bridge = none → n.brName = defaultBrName)
    ∧ ∀ s, d.bridge = some s → n.brName = s := by
  rw [loadNetConf] at h
  split at h
  · rw [Except.ok.injEq, Prod.mk.injEq] at h
    obtain ⟨hn, _⟩ := h
    subst hn
    constructor
    · intro hb; simp [hb]
    · intro s hb; simp [hb]
  · exact Except.noConfusion h

/-- C8, witness: the default applies to the demo stdin without a bridge
key, and an explicit `br-int` is taken verbatim. -/
theorem C8_witness :
    ({ brName := "ovsbr0", mtu := 1500, pNIC := "eth1" } : NetConf).brName
        = defaultBrName
    ∧ ({ brName := "br-int", mtu := 1500, pNIC := "eth1" } : NetConf).brName
        = "br-int" :=
  ⟨(C8_bridge_name_resolution dDemo ⟨"ovsbr0", 1500, "eth1"⟩ "0.3.1" rfl).1 rfl,
   (C8_bridge_name_resolution dNamedBridge ⟨"br-int", 1500, "eth1"⟩ "0.3.1"
      rfl).2 "br-int" rfl⟩

/-- C9, counterexample: a configuration that explicitly supplies
`"bridge": ""` is accepted by the loader, and the resolved switch name is
the empty string. -/
theorem C9_counterexample :
    loadNetConf dEmptyBridge =
        .ok ({ brName := "", mtu := 1500, pNIC := "eth1" }, "0.3.1")
    ∧ ({ brName := "", mtu := 1500, pNIC := "eth1" } : NetConf).brName = "" :=
  ⟨rfl, rfl⟩

/-- C9, amended: the resolved switch name is non-empty for every accepted
configuration that does not explicitly supply an empty bridge string; the
loader performs no validation, so an explicit `"bridge": ""` is accepted
with an empty switch name. -/
theorem C9_nonempty_unless_explicit (d : StdinData) (n : NetConf)
    (cv : String) (h : loadNetConf d = .ok (n, cv))
    (hb : d.bridge ≠ some "") :
    n.brName ≠ "" := by
  rw [loadNetConf] at h
  split at h
  · rw [Except.ok.injEq, Prod.mk.injEq] at h
    obtain ⟨hn, _⟩ := h
    subst hn
    rcases hbb : d.bridge with _ | s
    · simp [hbb, defaultBrName]
    · simp only [hbb, Option.getD_some]
      intro hs
      exact hb (by rw [hbb, hs])
  · exact Except.noConfusion h

/-- C9, witness: the amended statement on the demo stdin, whose bridge
key is absent. -/
theorem C9_witness :
    ({ brName := "ovsbr0", mtu := 1500, pNIC := "eth1" } : NetConf).brName ≠ "" :=
  C9_nonempty_unless_explicit dDemo ⟨"ovsbr0", 1500, "eth1"⟩ "0.3.1" rfl
    (by decide)

end Ovsbridge
